import Mathlib

/-!
Shallow embedding of the unitechio agent core, translated from the Go
sources: internal/config/config.go, the identity package (manager and
retry files), the buffer package, the sender package, the scheduler
package and cmd/agent/main.go.  Machine integers (int, int64,
time.Duration) are modelled as Int; byte sizes as Nat; durations are in
nanoseconds, matching Go time.Duration.  File-system and network effects
are modelled as explicit traces and oracles.
-/

namespace Agent

/-- Decidable equality for Except values, so concrete runs of the
fallible operations can be checked by evaluation. -/
instance {ε α : Type} [DecidableEq ε] [DecidableEq α] : DecidableEq (Except ε α) := fun x y =>
  match x, y with
  | Except.ok a, Except.ok b =>
      match decEq a b with
      | isTrue h => isTrue (by rw [h])
      | isFalse h => isFalse (fun hc => h (Except.ok.inj hc))
  | Except.error e, Except.error f =>
      match decEq e f with
      | isTrue h => isTrue (by rw [h])
      | isFalse h => isFalse (fun hc => h (Except.error.inj hc))
  | Except.ok _, Except.error _ => isFalse (fun hc => Except.noConfusion hc)
  | Except.error _, Except.ok _ => isFalse (fun hc => Except.noConfusion hc)

/-- One nanosecond-denominated second, as in Go time.Second. -/
def second : Int := 1000000000

/-- One hour in nanoseconds, as in Go time.Hour. -/
def hour : Int := 3600 * 1000000000

/-! ## Config data model (internal/config/config.go) -/

/-- TLSConfig from config.go: the cert, key and CA file paths. -/
structure TLSConfig where
  certFile : String
  keyFile : String
  caFile : String
  insecureSkipVerify : Bool
  deriving DecidableEq, Repr

/-- Config from config.go.  Durations are Int nanoseconds, sizes Int bytes. -/
structure Config where
  bootstrapped : Bool
  orgID : String
  agentID : String
  installToken : String
  apiBaseURL : String
  tls : TLSConfig
  collectionInterval : Int
  batchSize : Int
  maxBufferSize : Int
  bufferDir : String
  heartbeatInterval : Int
  logLevel : String
  logFile : String
  updateEnabled : Bool
  updateCheckInterval : Int
  deriving DecidableEq, Repr

/-- The config sentinel errors (errors.go of the config package): a
validation failure wraps ErrInvalidBootstrap or ErrInvalidRuntime with a
message, as fmt.Errorf with a percent-w verb does in the source. -/
inductive ConfigError where
  | configNotFound
  | invalidBootstrap (msg : String)
  | invalidRuntime (msg : String)
  | notBootstrapped
  deriving DecidableEq, Repr

/-- Config.ValidateBootstrap: org_id and install_token must be non-empty. -/
def validateBootstrap (c : Config) : Except ConfigError Unit :=
  if c.orgID = "" then
    Except.error (ConfigError.invalidBootstrap ("org_id is required"))
  else if c.installToken = "" then
    Except.error (ConfigError.invalidBootstrap ("install_token is required"))
  else
    Except.ok ()

/-- Config.ValidateRuntime, clause for clause from config.go lines
113-133: bootstrapped, then org_id, agent_id, api_base_url non-empty,
collection_interval at least ten seconds, batch_size in 1..1000. -/
def validateRuntime (c : Config) : Except ConfigError Unit :=
  if !c.bootstrapped then
    Except.error ConfigError.notBootstrapped
  else if c.orgID = "" then
    Except.error (ConfigError.invalidRuntime ("org_id is required"))
  else if c.agentID = "" then
    Except.error (ConfigError.invalidRuntime ("agent_id is required"))
  else if c.apiBaseURL = "" then
    Except.error (ConfigError.invalidRuntime ("api_base_url is required"))
  else if c.collectionInterval < 10 * second then
    Except.error (ConfigError.invalidRuntime ("collection_interval must be at least 10 seconds"))
  else if c.batchSize < 1 || c.batchSize > 1000 then
    Except.error (ConfigError.invalidRuntime ("batch_size must be between 1 and 1000"))
  else
    Except.ok ()

/-- Config.MarkBootstrapped: sets bootstrapped, agent_id, api_base_url
and clears install_token. -/
def markBootstrapped (c : Config) (agentID apiBaseURL : String) : Config :=
  { c with
    bootstrapped := true
    agentID := agentID
    apiBaseURL := apiBaseURL
    installToken := "" }

/-! ## Config persistence (Save and Load)

Go json.Marshal with the omitempty tags of config.go omits a field that
holds its zero value; json.Unmarshal restores an absent field to the zero
value.  SavedConfig is the serialized form: an Option-valued copy of each
omitempty field (none = the key is absent from the JSON object).  The tls
field carries an omitempty tag too, but Go never omits struct-typed
fields, so it is always present; its four inner fields have no omitempty
tag.  The bootstrapped field has no omitempty tag. -/

/-- The JSON object written by Config.Save, field for field. -/
structure SavedConfig where
  bootstrapped : Bool
  org_id : Option String
  agent_id : Option String
  install_token : Option String
  api_base_url : Option String
  tls : TLSConfig
  collection_interval : Option Int
  batch_size : Option Int
  max_buffer_size : Option Int
  buffer_dir : Option String
  heartbeat_interval : Option Int
  log_level : Option String
  log_file : Option String
  update_enabled : Option Bool
  update_check_interval : Option Int
  deriving DecidableEq, Repr

/-- Go json omitempty: the key is absent when the value is the zero value. -/
def omitIf {α : Type} [DecidableEq α] (zero : α) (x : α) : Option α :=
  if x = zero then none else some x

/-- json.MarshalIndent of a Config under the struct tags of config.go. -/
def marshalConfig (c : Config) : SavedConfig :=
  { bootstrapped := c.bootstrapped
    org_id := omitIf "" c.orgID
    agent_id := omitIf "" c.agentID
    install_token := omitIf "" c.installToken
    api_base_url := omitIf "" c.apiBaseURL
    tls := c.tls
    collection_interval := omitIf 0 c.collectionInterval
    batch_size := omitIf 0 c.batchSize
    max_buffer_size := omitIf 0 c.maxBufferSize
    buffer_dir := omitIf "" c.bufferDir
    heartbeat_interval := omitIf 0 c.heartbeatInterval
    log_level := omitIf "" c.logLevel
    log_file := omitIf "" c.logFile
    update_enabled := omitIf false c.updateEnabled
    update_check_interval := omitIf 0 c.updateCheckInterval }

/-- json.Unmarshal into a zero Config: an absent key leaves the zero value. -/
def unmarshalConfig (s : SavedConfig) : Config :=
  { bootstrapped := s.bootstrapped
    orgID := s.org_id.getD ""
    agentID := s.agent_id.getD ""
    installToken := s.install_token.getD ""
    apiBaseURL := s.api_base_url.getD ""
    tls := s.tls
    collectionInterval := s.collection_interval.getD 0
    batchSize := s.batch_size.getD 0
    maxBufferSize := s.max_buffer_size.getD 0
    bufferDir := s.buffer_dir.getD ""
    heartbeatInterval := s.heartbeat_interval.getD 0
    logLevel := s.log_level.getD ""
    logFile := s.log_file.getD ""
    updateEnabled := s.update_enabled.getD false
    updateCheckInterval := s.update_check_interval.getD 0 }

/-- The two environment variables Load consults; Go os.Getenv returns the
empty string when a variable is unset. -/
structure Env where
  orgID : String
  installToken : String
  deriving DecidableEq, Repr

/-- The environment overlay inside Load (config.go lines 66-76): an env
value replaces a field only when the loaded field is empty and the env
value is non-empty. -/
def applyEnvOverlay (env : Env) (c : Config) : Config :=
  let c1 := if c.orgID = "" then
              (if env.orgID = "" then c else { c with orgID := env.orgID })
            else c
  if c1.installToken = "" then
    (if env.installToken = "" then c1 else { c1 with installToken := env.installToken })
  else c1

/-- Config.Save stores the marshalled record (the file-system trace of
Save is modelled separately as configSaveOps). -/
def save (c : Config) : SavedConfig := marshalConfig c

/-- Load on a file that exists and parses: unmarshal, then the env overlay. -/
def load (s : SavedConfig) (env : Env) : Config :=
  applyEnvOverlay env (unmarshalConfig s)

/-! ## File-system traces (for atomicity and permission claims)

Save (config.go lines 82-99) and Manager.saveCertificates (identity
manager lines 268-286) are modelled by the ordered list of file-system
operations they perform.  Permissions are the octal modes of the source. -/

/-- A file-system operation: directory creation, a direct whole-file
write, or a rename. -/
inductive FsOp where
  | mkdirAll (dir : String) (perm : Nat)
  | writeFile (path : String) (perm : Nat)
  | rename (src : String) (dst : String)
  deriving DecidableEq, Repr

/-- Whether an operation is a rename. -/
def FsOp.isRenameOp : FsOp → Bool
  | FsOp.rename _ _ => true
  | _ => false

/-- Go filepath.Dir for slash-separated paths: all components but the
last (the claims never depend on the corner cases of path cleaning). -/
def dirname (p : String) : String :=
  let parts := p.splitOn ("/")
  if parts.length ≤ 1 then "." else String.intercalate ("/") parts.dropLast

/-- The trace of Config.Save: MkdirAll(dir, 0755) then one direct
WriteFile(path, 0600).  No temporary file, no rename. -/
def configSaveOps (_c : Config) (path : String) : List FsOp :=
  [FsOp.mkdirAll (dirname path) 0o755, FsOp.writeFile path 0o600]

/-- The three certificate paths held by the identity Manager. -/
structure CertPaths where
  certPath : String
  keyPath : String
  caPath : String
  deriving DecidableEq, Repr

/-- The trace of Manager.saveCertificates: three direct WriteFile calls,
cert and key at 0600, CA at 0644.  No temporary file, no rename. -/
def saveCertificatesOps (m : CertPaths) : List FsOp :=
  [FsOp.writeFile m.certPath 0o600,
   FsOp.writeFile m.keyPath 0o600,
   FsOp.writeFile m.caPath 0o644]

/-- The claim of C4 at one file: the ops contain a write to a temporary
name followed by a rename of that name onto the target path. -/
def writtenViaTempRename (ops : List FsOp) (path : String) : Prop :=
  ∃ tmp perm, tmp ≠ path ∧ FsOp.writeFile tmp perm ∈ ops ∧ FsOp.rename tmp path ∈ ops

/-- Claim C4 as stated, at given inputs: the config file and each of the
cert, key and CA files are written via temp-file plus rename. -/
def claimC4 (c : Config) (path : String) (m : CertPaths) : Prop :=
  writtenViaTempRename (configSaveOps c path) path ∧
  writtenViaTempRename (saveCertificatesOps m) m.certPath ∧
  writtenViaTempRename (saveCertificatesOps m) m.keyPath ∧
  writtenViaTempRename (saveCertificatesOps m) m.caPath

/-! ## Persistent buffer (internal/buffer/buffer.go)

A buffer is its directory contents (one entry per batch file, with the
modification time and byte size the Go code reads back from the file
system), the byte budget maxSize, and the tracked currentSize.  File
removal inside Prune is modelled as always succeeding. -/

/-- One file in the buffer directory. -/
structure BufFile where
  name : String
  modTime : Int
  size : Nat
  deriving DecidableEq, Repr

/-- The buffer state. -/
structure Buffer where
  files : List BufFile
  maxSize : Int
  currentSize : Int
  deriving DecidableEq, Repr

/-- Total byte size of a list of buffer files. -/
def sizeSum (l : List BufFile) : Int :=
  l.foldr (fun f acc => (f.size : Int) + acc) 0

/-- The batch file name Buffer.Write forms from the nanosecond clock. -/
def batchFileName (now : Int) : String :=
  "batch_" ++ toString now ++ ".json"

/-- Buffer.Write (buffer.go lines 43-70): dataSize is the length of the
marshalled record; refuse when currentSize + dataSize would exceed
maxSize, otherwise create the file and grow currentSize. -/
def bufferWrite (b : Buffer) (now : Int) (dataSize : Nat) : Except String Buffer :=
  if b.currentSize + (dataSize : Int) > b.maxSize then
    Except.error ("buffer full")
  else
    Except.ok
      { b with
        files := b.files ++ [{ name := batchFileName now, modTime := now, size := dataSize }]
        currentSize := b.currentSize + (dataSize : Int) }

/-- Insert a file into a list sorted by ascending modification time.  The
Go code sorts with an in-place exchange sort on modTime; only the
ascending order of the result matters to Prune. -/
def insertByModTime (f : BufFile) : List BufFile → List BufFile
  | [] => [f]
  | g :: rest =>
      if f.modTime ≤ g.modTime then f :: g :: rest
      else g :: insertByModTime f rest

/-- Sort buffer files by ascending modification time (oldest first). -/
def sortByModTime : List BufFile → List BufFile
  | [] => []
  | f :: rest => insertByModTime f (sortByModTime rest)

/-- The removal loop of Prune (buffer.go lines 209-221): walk the
oldest-first list while the tracked size still exceeds the budget.
removeOk tells whether os.Remove succeeds on a path: a successful
removal drops the file and decrements the tracked size; a failed one is
logged, skipped (the file stays, the size is not decremented) and the
loop continues.  Returns the surviving files and the final size. -/
def pruneLoop (removeOk : String → Bool) : List BufFile → Int → Int → List BufFile × Int
  | [], cur, _ => ([], cur)
  | f :: rest, cur, maxS =>
      if cur ≤ maxS then (f :: rest, cur)
      else if removeOk f.name then
        pruneLoop removeOk rest (cur - (f.size : Int)) maxS
      else
        let res := pruneLoop removeOk rest cur maxS
        (f :: res.1, res.2)

/-- Buffer.Prune (buffer.go lines 158-224): a no-op when within budget,
otherwise remove oldest-by-modification-time files until within budget.
Whatever the removal loop achieves, Prune returns nil (success); in
particular it returns nil even when removals failed and the size is
still above the budget. -/
def bufferPrune (removeOk : String → Bool) (b : Buffer) : Buffer :=
  if b.currentSize ≤ b.maxSize then b
  else
    let res := pruneLoop removeOk (sortByModTime b.files) b.currentSize b.maxSize
    { b with files := res.1, currentSize := res.2 }

/-- Buffer.Clear: remove every file and reset the tracked size. -/
def bufferClear (b : Buffer) : Buffer :=
  { b with files := [], currentSize := 0 }

/-! ## Delivery pipeline flush (the sender package)

Sender.flush combines the queue into one batch, runs sendWithRetry, and
on terminal failure writes the combined batch to the buffer; on success
it clears the queue and opportunistically drains the buffer.  Time,
network and JSON encoding are oracles: the outcome of sendWithRetry, the
marshalled size of the combined batch, the clock, and whether the drain
of buffered batches succeeds are parameters. -/

/-- Terminal outcome of Sender.sendWithRetry for one combined batch. -/
inductive SendOutcome where
  | delivered
  | terminalFailure (msg : String)
  deriving DecidableEq, Repr

/-- What one call of Sender.flush did: the new queue, the new buffer, the
returned error if any, whether Buffer.Prune was ever invoked, and how
many Buffer.Write calls were attempted. -/
structure FlushResult where
  queue : List Nat
  buffer : Buffer
  errMsg : Option String
  pruneCalled : Bool
  writeAttempts : Nat
  deriving DecidableEq, Repr

/-- Sender.flush (sender file lines 84-122).  The queue is the list of
queued data points (only their count matters to flush); combinedSize is
the byte length of the marshalled combined batch; drainOk tells whether
the flushBuffer drain of previously buffered batches succeeds. -/
def flush (queue : List Nat) (buf : Buffer) (outcome : SendOutcome)
    (combinedSize : Nat) (now : Int) (drainOk : Bool) : FlushResult :=
  if queue.isEmpty then
    { queue := queue, buffer := buf, errMsg := none, pruneCalled := false, writeAttempts := 0 }
  else
    match outcome with
    | SendOutcome.terminalFailure msg =>
        -- send failed: save the combined batch to the buffer; on a buffer
        -- error just return the combined error, with no prune and no retry
        match bufferWrite buf now combinedSize with
        | Except.error bufErr =>
            { queue := queue, buffer := buf,
              errMsg := some ("send failed and buffer failed: " ++ bufErr),
              pruneCalled := false, writeAttempts := 1 }
        | Except.ok buf2 =>
            { queue := queue, buffer := buf2, errMsg := some msg,
              pruneCalled := false, writeAttempts := 1 }
    | SendOutcome.delivered =>
        -- success clears the queue and tries to drain the buffer
        if drainOk then
          { queue := [], buffer := bufferClear buf, errMsg := none,
            pruneCalled := false, writeAttempts := 0 }
        else
          { queue := [], buffer := buf, errMsg := none,
            pruneCalled := false, writeAttempts := 0 }

/-- Claim C5 as stated, at given inputs: on terminal send failure with a
full buffer, flush prunes and then retries the write (two attempts). -/
def claimC5 (queue : List Nat) (buf : Buffer) (msg : String)
    (combinedSize : Nat) (now : Int) (drainOk : Bool) : Prop :=
  queue ≠ [] →
  bufferWrite buf now combinedSize = Except.error ("buffer full") →
  (flush queue buf (SendOutcome.terminalFailure msg) combinedSize now drainOk).pruneCalled = true ∧
  (flush queue buf (SendOutcome.terminalFailure msg) combinedSize now drainOk).writeAttempts = 2

/-! ## Collector scheduler (the scheduler package)

Scheduler.runCollector (lines 107-128) runs one collection and handles
its result.  The observable effects are modelled: what was sent to the
delivery pipeline, what was logged, and whether the run was retried
before the next tick. -/

/-- The outcome of one Collector.Collect call. -/
inductive CollectorResult where
  | ok (data : String)
  | err (msg : String)
  deriving DecidableEq, Repr

/-- The observable effects of one runCollector invocation. -/
structure RunOutcome where
  sent : List String
  loggedData : List String
  errorLogged : Bool
  retried : Bool
  deriving DecidableEq, Repr

/-- Scheduler.runCollector: an error is logged and the run returns with
no retry; a successful record is logged (the source has only a TODO in
place of handing it to the sender, so nothing is ever sent). -/
def runCollector (r : CollectorResult) : RunOutcome :=
  match r with
  | CollectorResult.err _ =>
      { sent := [], loggedData := [], errorLogged := true, retried := false }
  | CollectorResult.ok d =>
      { sent := [], loggedData := [d], errorLogged := false, retried := false }

/-- Claim C3 as stated, at a given record: a record collected without
error is passed to the delivery pipeline. -/
def claimC3 (d : String) : Prop :=
  d ∈ (runCollector (CollectorResult.ok d)).sent

/-! ## Identity manager (the identity package)

The on-disk world of the manager: the contents of the cert, key and CA
files (none = the file is absent), together with oracles for the
cryptographic library calls on those contents.  chainValid is the
validation of the leaf against the stored CA bundle; the Go code never
performs it, but the model carries it so the near-expiry claim can be
stated with all of its hypotheses. -/

/-- The world NeedsRebootstrap and VerifyIdentity read. -/
structure IdentityWorld where
  certFile : Option String
  keyFile : Option String
  caFile : Option String
  pairParses : String → String → Bool
  parseLeaf : String → Bool
  chainValid : String → String → Bool
  notAfter : String → Int
  now : Int

/-- Go tls.X509KeyPair: parses a cert PEM and a key PEM.  When the key
argument is nil there is no PEM block to decode in the key input, so the
call always fails; with both inputs present the outcome is the oracle. -/
def x509KeyPair (w : IdentityWorld) (certPEM : String) (keyPEM : Option String) : Bool :=
  match keyPEM with
  | none => false
  | some k => w.pairParses certPEM k

/-- Manager.HasIdentity: all three files exist. -/
def hasIdentity (w : IdentityWorld) : Bool :=
  w.certFile.isSome && w.keyFile.isSome && w.caFile.isSome

/-- Manager.VerifyIdentity (lines 289-319): read cert and key, parse the
pair with tls.X509KeyPair, then parse the leaf with
x509.ParseCertificate (to extract the agent ID). -/
def verifyIdentity (w : IdentityWorld) : Bool :=
  match w.certFile with
  | none => false
  | some certPEM =>
      match w.keyFile with
      | none => false
      | some keyPEM => x509KeyPair w certPEM (some keyPEM) && w.parseLeaf certPEM

/-- Manager.NeedsRebootstrap (lines 84-119): true when no identity, or
verification fails; then the cert file is read again and re-parsed with
tls.X509KeyPair(certPEM, nil) -- a nil key -- then the leaf is parsed
and its NotAfter compared against a 24 hour margin. -/
def needsRebootstrap (w : IdentityWorld) : Bool :=
  if !hasIdentity w then true
  else if !verifyIdentity w then true
  else
    match w.certFile with
    | none => true
    | some certPEM =>
        if !x509KeyPair w certPEM none then true
        else if !w.parseLeaf certPEM then true
        else if w.notAfter certPEM - w.now < 24 * hour then true
        else false

/-! ## Retry with backoff (the identity package retry file)

RetryWithBackoff runs fn up to MaxAttempts times, stopping at the first
success; every failure is retried (the loop never consults IsRetryable).
Delays, jitter and context cancellation concern real time and are not
part of the attempt-count behaviour these claims are about. -/

/-- The decoded bootstrap response body (identity manager lines 41-49). -/
structure BootstrapResponseData where
  agentID : String
  apiBaseURL : String
  certificate : String
  privateKey : String
  caCert : String
  deriving DecidableEq, Repr

/-- The response of one bootstrap HTTP attempt, as an oracle: a transport
error, or a server response; payload is the decoded body of a 200 (none
models a body that fails to decode). -/
inductive ApiResult where
  | netError (msg : String)
  | response (status : Nat) (body : String) (payload : Option BootstrapResponseData)
  deriving Repr

/-- An error from one callBootstrapAPI attempt. -/
inductive BootErr where
  | httpError (msg : String)
  | statusError (code : Nat) (body : String)
  | decodeError
  deriving DecidableEq, Repr

/-- Manager.callBootstrapAPI (lines 218-265) on one response: a transport
failure is an error; a status other than 200 is an error; a 200 decodes
the body, and an empty api_base_url in it is replaced by the default. -/
def callBootstrapAPI (r : ApiResult) : Except BootErr BootstrapResponseData :=
  match r with
  | ApiResult.netError msg => Except.error (BootErr.httpError msg)
  | ApiResult.response status body payload =>
      if status ≠ 200 then Except.error (BootErr.statusError status body)
      else
        match payload with
        | none => Except.error BootErr.decodeError
        | some resp =>
            if resp.apiBaseURL = "" then
              Except.ok { resp with apiBaseURL := "https://api.unitechio.space" }
            else
              Except.ok resp

/-- The result of RetryWithBackoff: the value of the first success
together with the number of calls made, or exhaustion after maxAttempts
calls carrying the last error. -/
inductive RetryResult (α : Type) where
  | ok (a : α) (calls : Nat)
  | exhausted (last : Option BootErr) (calls : Nat)
  deriving DecidableEq, Repr

/-- The loop of RetryWithBackoff: attempt is the index of the next call,
remaining the attempts still allowed, last the last error seen. -/
def retryAux (fn : Nat → Except BootErr α) (last : Option BootErr) :
    Nat → Nat → RetryResult α
  | attempt, 0 => RetryResult.exhausted last attempt
  | attempt, r + 1 =>
      match fn attempt with
      | Except.ok a => RetryResult.ok a (attempt + 1)
      | Except.error e => retryAux fn (some e) (attempt + 1) r

/-- RetryWithBackoff (retry file lines 428-458), with cfg.MaxAttempts. -/
def retryWithBackoff (fn : Nat → Except BootErr α) (maxAttempts : Nat) : RetryResult α :=
  retryAux fn none 0 maxAttempts

/-- IsRetryable (retry file lines 479-494): false for a nil error and
true for every other error, the comments about 4xx notwithstanding. -/
def isRetryable (e : Option BootErr) : Bool :=
  match e with
  | none => false
  | some _ => true

/-- DefaultRetryConfig().MaxAttempts. -/
def defaultMaxAttempts : Nat := 10

/-- How many calls a retry run made. -/
def retryCalls (r : RetryResult α) : Nat :=
  match r with
  | RetryResult.ok _ c => c
  | RetryResult.exhausted _ c => c

/-- An oracle on which the server answers 401 Unauthorized on every
attempt, with a body that carries the reason. -/
def oracle401 : Nat → ApiResult :=
  fun _ => ApiResult.response 401 ("Unauthorized") none

/-! ## RunBootstrap (identity manager lines 123-164)

Validation, manager creation (one MkdirAll), the retry loop around
callBootstrapAPI, certificate persistence and MarkBootstrapped.  The
outcome records the returned value, the number of network calls made and
the trace of file-system operations. -/

/-- An error returned by RunBootstrap, by the wrapping site. -/
inductive BootstrapError where
  | validation (e : ConfigError)
  | retriesExhausted (last : Option BootErr)
  deriving DecidableEq, Repr

/-- The observable outcome of RunBootstrap. -/
structure BootOutcome where
  result : Except BootstrapError Config
  netCalls : Nat
  fsOps : List FsOp
  deriving Repr

/-- RunBootstrap: ValidateBootstrap first -- a failure surfaces at once,
before the manager is created, before any network call and before any
file is touched.  Otherwise NewManager makes the cert directory, the
retry loop calls the bootstrap API, and success saves the three
certificate files and marks the config bootstrapped. -/
def runBootstrap (c : Config) (oracle : Nat → ApiResult) : BootOutcome :=
  match validateBootstrap c with
  | Except.error e => { result := Except.error (BootstrapError.validation e), netCalls := 0, fsOps := [] }
  | Except.ok _ =>
      let mkOps := [FsOp.mkdirAll (dirname c.tls.certFile) 0o700]
      let paths : CertPaths := { certPath := c.tls.certFile, keyPath := c.tls.keyFile, caPath := c.tls.caFile }
      match retryWithBackoff (fun i => callBootstrapAPI (oracle i)) defaultMaxAttempts with
      | RetryResult.exhausted last n =>
          { result := Except.error (BootstrapError.retriesExhausted last), netCalls := n, fsOps := mkOps }
      | RetryResult.ok resp n =>
          { result := Except.ok (markBootstrapped c resp.agentID resp.apiBaseURL),
            netCalls := n,
            fsOps := mkOps ++ saveCertificatesOps paths }

/-- Whether a RunBootstrap error wraps ErrInvalidBootstrap. -/
def wrapsInvalidBootstrap : BootstrapError → Bool
  | BootstrapError.validation (ConfigError.invalidBootstrap _) => true
  | _ => false

/-! ## Concrete inputs used by the witnesses and counterexamples -/

/-- A TLS path triple used by concrete configs. -/
def tlsEx : TLSConfig :=
  { certFile := "/var/lib/your-agent/certs/agent.crt"
    keyFile := "/var/lib/your-agent/certs/agent.key"
    caFile := "/var/lib/your-agent/certs/ca.crt"
    insecureSkipVerify := false }

/-- A runtime-valid config whose install_token is empty, as
MarkBootstrapped leaves it after a successful bootstrap. -/
def cfgRuntimeEx : Config :=
  { bootstrapped := true
    orgID := "org-1"
    agentID := "agent-1"
    installToken := ""
    apiBaseURL := "https://api.unitechio.space"
    tls := tlsEx
    collectionInterval := 60 * second
    batchSize := 100
    maxBufferSize := 104857600
    bufferDir := "/var/lib/your-agent/buffer"
    heartbeatInterval := 300 * second
    logLevel := "info"
    logFile := "/var/log/your-agent/agent.log"
    updateEnabled := true
    updateCheckInterval := 3600 * second }

/-- A bootstrap-valid config (org_id and install_token non-empty). -/
def cfgBootstrapEx : Config :=
  { cfgRuntimeEx with
    bootstrapped := false
    agentID := ""
    installToken := "tok-123" }

/-- A config that claim C8 accepts but ValidateRuntime rejects: every
field the claim lists is valid, and org_id is empty. -/
def cfgNoOrgEx : Config :=
  { cfgRuntimeEx with orgID := "" }

/-- An environment in which INSTALL_TOKEN is set. -/
def envTokenEx : Env := { orgID := "", installToken := "tok-from-env" }

/-- An environment with neither variable set. -/
def envEmptyEx : Env := { orgID := "", installToken := "" }

/-- A consistent buffer over budget, for the prune witness: two files of
5 and 7 bytes, budget 10, tracked size 12. -/
def bufOverEx : Buffer :=
  { files := [{ name := "batch_1.json", modTime := 1, size := 5 },
              { name := "batch_2.json", modTime := 2, size := 7 }]
    maxSize := 10
    currentSize := 12 }

/-- A consistent full buffer, for the flush counterexample: one file of
8 bytes, budget 10, tracked size 8, so a 6 byte write is refused. -/
def bufFullEx : Buffer :=
  { files := [{ name := "batch_1.json", modTime := 1, size := 8 }]
    maxSize := 10
    currentSize := 8 }

/-- An identity world holding a stored triple that is valid in every
respect of claim C1: the pair parses, the leaf parses, the chain
validates against the CA, and NotAfter is 48 hours away. -/
def goodWorldEx : IdentityWorld :=
  { certFile := some ("CERT-PEM")
    keyFile := some ("KEY-PEM")
    caFile := some ("CA-PEM")
    pairParses := fun _ _ => true
    parseLeaf := fun _ => true
    chainValid := fun _ _ => true
    notAfter := fun _ => 48 * hour
    now := 0 }

/-- The default Linux certificate paths, as a CertPaths triple. -/
def certPathsEx : CertPaths :=
  { certPath := tlsEx.certFile, keyPath := tlsEx.keyFile, caPath := tlsEx.caFile }

/-- The default Linux config path. -/
def configPathEx : String := "/etc/unitechio/agent/config.json"

/-- Claim C6 as stated, in its Prune part, at given inputs: immediately
after any Prune that returns successfully the tracked size is at most
the budget (the source Prune always returns nil, so every run returns
successfully). -/
def claimC6 (removeOk : String → Bool) (b : Buffer) : Prop :=
  (bufferPrune removeOk b).currentSize ≤ b.maxSize

/-- Claim C7 as stated, at given inputs: for a config accepted by either
validator, Save then Load is the identity. -/
def claimC7 (c : Config) (env : Env) : Prop :=
  (validateBootstrap c = Except.ok () ∨ validateRuntime c = Except.ok ()) →
  load (save c) env = c

/-- Claim C8 as stated, at a given config: ValidateRuntime succeeds
exactly when bootstrapped holds, agent_id and api_base_url are
non-empty, collection_interval is at least ten seconds and batch_size
lies in 1..1000 (org_id does not appear in the claim). -/
def claimC8 (c : Config) : Prop :=
  validateRuntime c = Except.ok () ↔
    (c.bootstrapped = true ∧ c.agentID ≠ "" ∧ c.apiBaseURL ≠ "" ∧
     10 * second ≤ c.collectionInterval ∧ 1 ≤ c.batchSize ∧ c.batchSize ≤ 1000)

/-! ## Helper lemmas -/

/-- Reading back an omitempty field restores the original value. -/
theorem getD_omitIf {α : Type} [DecidableEq α] (zero x : α) :
    (omitIf zero x).getD zero = x := by
  unfold omitIf
  split_ifs with h
  · simp [h]
  · rfl

/-- json round trip: unmarshalling a marshalled Config restores it. -/
theorem unmarshal_marshal (c : Config) : unmarshalConfig (marshalConfig c) = c := by
  cases c
  simp [marshalConfig, unmarshalConfig, getD_omitIf]

/-- A config accepted by ValidateBootstrap has non-empty org_id and
install_token. -/
theorem validateBootstrap_ok {c : Config} (h : validateBootstrap c = Except.ok ()) :
    c.orgID ≠ "" ∧ c.installToken ≠ "" := by
  unfold validateBootstrap at h
  split_ifs at h with h1 h2
  · exact ⟨h1, h2⟩

/-- Characterization of ValidateRuntime as a conjunction of the six
conditions the source checks. -/
theorem validateRuntime_ok_iff (c : Config) :
    validateRuntime c = Except.ok () ↔
      (c.bootstrapped = true ∧ c.orgID ≠ "" ∧ c.agentID ≠ "" ∧ c.apiBaseURL ≠ "" ∧
       10 * second ≤ c.collectionInterval ∧ 1 ≤ c.batchSize ∧ c.batchSize ≤ 1000) := by
  unfold validateRuntime
  split_ifs with h1 h2 h3 h4 h5 h6 <;> simp_all
  omega

/-- The environment overlay is the identity on a config whose org_id is
non-empty, provided its install_token is non-empty or the INSTALL_TOKEN
variable is unset. -/
theorem applyEnvOverlay_id (env : Env) (c : Config) (horg : c.orgID ≠ "")
    (h2 : c.installToken ≠ "" ∨ env.installToken = "") : applyEnvOverlay env c = c := by
  unfold applyEnvOverlay
  rw [if_neg horg]
  rcases h2 with h | h
  · rw [if_neg h]
  · by_cases hit : c.installToken = ""
    · rw [if_pos hit, if_pos h]
    · rw [if_neg hit]

/-- The environment overlay never touches install_token when the
INSTALL_TOKEN variable is unset. -/
theorem applyEnvOverlay_installToken (env : Env) (c : Config)
    (he : env.installToken = "") :
    (applyEnvOverlay env c).installToken = c.installToken := by
  unfold applyEnvOverlay
  split_ifs <;> simp_all
  split_ifs <;> simp_all

/-- RunBootstrap on a config with an empty install_token or empty org_id
fails validation at once: the error wraps ErrInvalidBootstrap, no network
call is made and no file-system operation is performed. -/
theorem runBootstrap_invalid (c : Config) (oracle : Nat → ApiResult)
    (h : c.installToken = "" ∨ c.orgID = "") :
    ∃ msg, (runBootstrap c oracle).result =
        Except.error (BootstrapError.validation (ConfigError.invalidBootstrap msg)) ∧
      (runBootstrap c oracle).netCalls = 0 ∧ (runBootstrap c oracle).fsOps = [] := by
  have hv : ∃ msg, validateBootstrap c = Except.error (ConfigError.invalidBootstrap msg) := by
    unfold validateBootstrap
    by_cases horg : c.orgID = ""
    · exact ⟨"org_id is required", by rw [if_pos horg]⟩
    · rcases h with hit | ho
      · exact ⟨"install_token is required", by rw [if_neg horg, if_pos hit]⟩
      · exact absurd ho horg
  obtain ⟨msg, hm⟩ := hv
  exact ⟨msg, by simp [runBootstrap, hm], by simp [runBootstrap, hm], by simp [runBootstrap, hm]⟩

/-- Byte size of a cons cell of buffer files. -/
theorem sizeSum_cons (f : BufFile) (l : List BufFile) :
    sizeSum (f :: l) = (f.size : Int) + sizeSum l := rfl

/-- Insertion preserves the total byte size. -/
theorem sizeSum_insertByModTime (f : BufFile) (l : List BufFile) :
    sizeSum (insertByModTime f l) = (f.size : Int) + sizeSum l := by
  induction l with
  | nil => rfl
  | cons g rest ih =>
      unfold insertByModTime
      split_ifs
      · rfl
      · rw [sizeSum_cons, ih, sizeSum_cons]
        ring

/-- Sorting by modification time preserves the total byte size. -/
theorem sizeSum_sortByModTime (l : List BufFile) :
    sizeSum (sortByModTime l) = sizeSum l := by
  induction l with
  | nil => rfl
  | cons f rest ih =>
      unfold sortByModTime
      rw [sizeSum_insertByModTime, ih, sizeSum_cons]

/-- Membership in an insertion is membership in the parts. -/
theorem mem_insertByModTime (x f : BufFile) (l : List BufFile)
    (h : x ∈ insertByModTime f l) : x = f ∨ x ∈ l := by
  induction l with
  | nil => simpa [insertByModTime] using h
  | cons g rest ih =>
      unfold insertByModTime at h
      split_ifs at h with hle
      · simpa using h
      · rcases List.mem_cons.mp h with hg | hrest
        · exact Or.inr (List.mem_cons.mpr (Or.inl hg))
        · rcases ih hrest with hx | hx
          · exact Or.inl hx
          · exact Or.inr (List.mem_cons.mpr (Or.inr hx))

/-- Sorting introduces no new files. -/
theorem mem_sortByModTime (x : BufFile) (l : List BufFile)
    (h : x ∈ sortByModTime l) : x ∈ l := by
  induction l with
  | nil => simp [sortByModTime] at h
  | cons f rest ih =>
      unfold sortByModTime at h
      rcases mem_insertByModTime x f (sortByModTime rest) h with hx | hx
      · exact List.mem_cons.mpr (Or.inl hx)
      · exact List.mem_cons.mpr (Or.inr (ih hx))

/-- When every removal succeeds, the prune loop ends at or below the
budget, provided the tracked size equals the total size of the listed
files and the budget is non-negative. -/
theorem pruneLoop_le (removeOk : String → Bool) (l : List BufFile) (cur maxS : Int)
    (hall : ∀ f ∈ l, removeOk f.name = true)
    (h : cur = sizeSum l) (hmax : 0 ≤ maxS) : (pruneLoop removeOk l cur maxS).2 ≤ maxS := by
  induction l generalizing cur with
  | nil =>
      unfold pruneLoop
      simp only []
      have : cur = 0 := by simpa [sizeSum] using h
      omega
  | cons f rest ih =>
      unfold pruneLoop
      split_ifs with hc hrm
      · exact hc
      · exact ih (cur - (f.size : Int)) (fun g hg => hall g (List.mem_cons.mpr (Or.inr hg)))
          (by rw [sizeSum_cons] at h; omega)
      · exact absurd (hall f (List.mem_cons.mpr (Or.inl rfl))) hrm

/-! ## Claim theorems -/

/-- C1: the claim says NeedsRebootstrap returns false for a stored triple
that is present, whose key and cert parse as a pair, whose chain
validates against the stored CA, and whose NotAfter is at least 24 hours
away.  The code returns true on every such world: after VerifyIdentity
succeeds, the expiry re-check parses the certificate with
tls.X509KeyPair(certPEM, nil), whose nil key input holds no PEM block and
therefore always fails, sending the function into its return-true branch
before the NotAfter comparison is ever reached. -/
theorem c1_code_bug (w : IdentityWorld) (c k ca : String)
    (hc : w.certFile = some c) (hk : w.keyFile = some k) (hca : w.caFile = some ca)
    (hpair : w.pairParses c k = true) (hleaf : w.parseLeaf c = true)
    (_hchain : w.chainValid c ca = true) (_hexp : 24 * hour ≤ w.notAfter c - w.now) :
    needsRebootstrap w = true := by
  simp [needsRebootstrap, hasIdentity, verifyIdentity, x509KeyPair, hc, hk, hca, hpair, hleaf]

/-- C1 witness: the concrete fully-valid world, at which the code still
reports that a re-bootstrap is needed. -/
theorem c1_code_bug_witness : needsRebootstrap goodWorldEx = true :=
  c1_code_bug goodWorldEx "CERT-PEM" "KEY-PEM" "CA-PEM" rfl rfl rfl rfl rfl rfl (by decide)

/-- C2: the claim says a 4xx other than 408 or 429 is not retried and
surfaces after the first attempt.  With the server answering 401 on every
attempt and the default MaxAttempts of 10, RetryWithBackoff makes all ten
calls and then reports exhaustion carrying the 401; moreover IsRetryable
classifies the 401 as retryable, despite its own comment. -/
theorem c2_code_bug :
    retryCalls (retryWithBackoff (fun i => callBootstrapAPI (oracle401 i)) defaultMaxAttempts) = 10 ∧
    retryWithBackoff (fun i => callBootstrapAPI (oracle401 i)) defaultMaxAttempts =
      RetryResult.exhausted (some (BootErr.statusError 401 ("Unauthorized"))) 10 ∧
    isRetryable (some (BootErr.statusError 401 ("Unauthorized"))) = true :=
  ⟨rfl, rfl, rfl⟩

/-- C3 counterexample: a record collected without error is not passed to
the delivery pipeline; runCollector sends nothing at all. -/
theorem c3_counterexample : ¬ claimC3 "cpu-sample" := by
  unfold claimC3
  decide

/-- C3 (amended): a collector invocation that returns a record without
error has that record logged, not sent; nothing is ever handed to the
delivery pipeline by the scheduler; collector errors are logged and the
invocation is not retried before the next tick. -/
theorem c3_amended (r : CollectorResult) :
    (runCollector r).sent = [] ∧
    (∀ d, r = CollectorResult.ok d →
      (runCollector r).loggedData = [d] ∧ (runCollector r).errorLogged = false ∧
      (runCollector r).retried = false) ∧
    (∀ e, r = CollectorResult.err e →
      (runCollector r).errorLogged = true ∧ (runCollector r).loggedData = [] ∧
      (runCollector r).retried = false) := by
  cases r <;> simp [runCollector]

/-- C3 witness: the amended statement evaluated on a successful concrete
collection. -/
theorem c3_amended_witness : (runCollector (CollectorResult.ok "cpu-sample")).sent = [] :=
  (c3_amended (CollectorResult.ok "cpu-sample")).1

/-- C4 counterexample: at a concrete config, config path and certificate
paths, no file is written by temp-file plus rename; the trace of
Config.Save holds no rename at all. -/
theorem c4_counterexample : ¬ claimC4 cfgRuntimeEx configPathEx certPathsEx := by
  rintro ⟨⟨tmp, perm, _hne, _hw, hr⟩, -, -, -⟩
  simp [configSaveOps] at hr

/-- C4 (amended): Config.Save creates the parent directory at mode 0755
and then writes the config file in place with a single WriteFile at mode
0600; saveCertificates writes the cert and key in place at mode 0600
(owner-only) and the CA at mode 0644; no temporary file and no rename is
used, so the writes are not atomic. -/
theorem c4_amended (c : Config) (path : String) (m : CertPaths) :
    configSaveOps c path = [FsOp.mkdirAll (dirname path) 0o755, FsOp.writeFile path 0o600] ∧
    saveCertificatesOps m =
      [FsOp.writeFile m.certPath 0o600, FsOp.writeFile m.keyPath 0o600,
       FsOp.writeFile m.caPath 0o644] ∧
    (∀ op ∈ configSaveOps c path, op.isRenameOp = false) ∧
    (∀ op ∈ saveCertificatesOps m, op.isRenameOp = false) := by
  refine ⟨rfl, rfl, ?_, ?_⟩
  · intro op hop
    simp [configSaveOps] at hop
    rcases hop with h | h <;> simp [h, FsOp.isRenameOp]
  · intro op hop
    simp [saveCertificatesOps] at hop
    rcases hop with h | h | h <;> simp [h, FsOp.isRenameOp]

/-- C4 witness: the amended statement evaluated at the concrete paths. -/
theorem c4_amended_witness :
    configSaveOps cfgRuntimeEx configPathEx =
      [FsOp.mkdirAll (dirname configPathEx) 0o755, FsOp.writeFile configPathEx 0o600] :=
  (c4_amended cfgRuntimeEx configPathEx certPathsEx).1

/-- C5 counterexample: with a non-empty queue, a terminally failing send
and a buffer too full to take the combined batch, flush neither prunes
nor retries the write; it makes exactly one write attempt and gives up. -/
theorem c5_counterexample : ¬ claimC5 [3] bufFullEx "boom" 6 9 false := by
  unfold claimC5
  decide

/-- C5 (amended): when a flush with a non-empty queue suffers a terminal
send failure, the pending batch is written to the persistent buffer in a
single attempt, with Prune never invoked: if the write succeeds the
buffer grows and the send error is returned; if the write fails
(including buffer-full) the buffer is left unchanged and a combined error
is returned, with no prune and no second write attempt; in both cases the
queue is kept. -/
theorem c5_amended (queue : List Nat) (buf : Buffer) (msg : String)
    (combinedSize : Nat) (now : Int) (drainOk : Bool) (hq : queue ≠ []) :
    (flush queue buf (SendOutcome.terminalFailure msg) combinedSize now drainOk).pruneCalled = false ∧
    (flush queue buf (SendOutcome.terminalFailure msg) combinedSize now drainOk).writeAttempts = 1 ∧
    (∀ buf2, bufferWrite buf now combinedSize = Except.ok buf2 →
      (flush queue buf (SendOutcome.terminalFailure msg) combinedSize now drainOk).buffer = buf2 ∧
      (flush queue buf (SendOutcome.terminalFailure msg) combinedSize now drainOk).errMsg = some msg ∧
      (flush queue buf (SendOutcome.terminalFailure msg) combinedSize now drainOk).queue = queue) ∧
    (∀ e, bufferWrite buf now combinedSize = Except.error e →
      (flush queue buf (SendOutcome.terminalFailure msg) combinedSize now drainOk).buffer = buf ∧
      (flush queue buf (SendOutcome.terminalFailure msg) combinedSize now drainOk).errMsg =
        some ("send failed and buffer failed: " ++ e) ∧
      (flush queue buf (SendOutcome.terminalFailure msg) combinedSize now drainOk).queue = queue) := by
  have hne : ¬ (queue.isEmpty = true) := by simp [hq]
  cases hw : bufferWrite buf now combinedSize with
  | error e => simp [flush, hne, hw]
  | ok buf2 => simp [flush, hne, hw]

/-- C5 witness: the amended statement at the concrete full-buffer world
of the counterexample. -/
theorem c5_amended_witness :
    (flush [3] bufFullEx (SendOutcome.terminalFailure ("boom")) 6 9 false).pruneCalled = false :=
  (c5_amended [3] bufFullEx "boom" 6 9 false (by decide)).1

/-- C6 counterexample: on a concrete over-budget buffer whose file
removals fail, Prune skips the size decrements, still returns nil
(success) as the source always does, and leaves the tracked size above
the budget -- refuting the unconditional after-Prune invariant. -/
theorem c6_counterexample : ¬ claimC6 (fun _ => false) bufOverEx := by
  unfold claimC6
  decide

/-- C6 (amended): for a buffer whose tracked size equals the total size
of its files and whose budget is non-negative: a successful Write leaves
the size at or below the budget; Write refuses, with the buffer-full
error and no file written, exactly when the tracked size plus the record
size would exceed the budget; and Prune, which removes
oldest-by-modification-time files, ends at or below the budget provided
every file removal succeeds (a failed os.Remove is logged and skipped
without decrementing the size, and Prune still returns nil, so after
removal failures the size may stay above the budget). -/
theorem c6_amended (b : Buffer) (now : Int) (n : Nat) (removeOk : String → Bool)
    (hinv : b.currentSize = sizeSum b.files) (hmax : 0 ≤ b.maxSize) :
    (∀ b2, bufferWrite b now n = Except.ok b2 → b2.currentSize ≤ b.maxSize) ∧
    (b.currentSize + (n : Int) > b.maxSize ↔ bufferWrite b now n = Except.error ("buffer full")) ∧
    ((∀ f ∈ b.files, removeOk f.name = true) →
      (bufferPrune removeOk b).currentSize ≤ b.maxSize) := by
  refine ⟨?_, ?_, ?_⟩
  · intro b2 hb2
    unfold bufferWrite at hb2
    split_ifs at hb2 with hfull
    have h2 := Except.ok.inj hb2
    subst h2
    show b.currentSize + (n : Int) ≤ b.maxSize
    omega
  · constructor
    · intro h
      unfold bufferWrite
      rw [if_pos h]
    · intro h
      unfold bufferWrite at h
      split_ifs at h with hfull
      exact hfull
  · intro hall
    unfold bufferPrune
    split_ifs with hle
    · exact hle
    · simpa using pruneLoop_le removeOk (sortByModTime b.files) b.currentSize b.maxSize
        (fun f hf => hall f (mem_sortByModTime f b.files hf))
        (by rw [hinv, sizeSum_sortByModTime]) hmax

/-- C6 witness: the amended statement evaluated on a concrete
over-budget buffer with all removals succeeding (prune ends within
budget) and on a concrete full buffer (a 6-byte write is refused). -/
theorem c6_amended_witness :
    (bufferPrune (fun _ => true) bufOverEx).currentSize ≤ bufOverEx.maxSize ∧
    bufferWrite bufFullEx 3 6 = Except.error ("buffer full") :=
  ⟨(c6_amended bufOverEx 0 0 (fun _ => true) (by decide) (by decide)).2.2
     (fun f _ => rfl),
   ((c6_amended bufFullEx 3 6 (fun _ => true) (by decide) (by decide)).2.1).mp (by decide)⟩

/-- C7 counterexample: a runtime-valid config whose install_token is
empty, loaded in an environment where INSTALL_TOKEN is set, comes back
with the environment token instead of the saved empty one, so Save then
Load is not the identity. -/
theorem c7_counterexample : ¬ claimC7 cfgRuntimeEx envTokenEx := by
  unfold claimC7
  decide

/-- C7 (amended): Save then Load is the identity on a validator-accepted
config except for the environment overlay inside Load: it holds
unconditionally for ValidateBootstrap-accepted configs (their org_id and
install_token are non-empty, so no overlay applies), and for
ValidateRuntime-accepted configs whenever the INSTALL_TOKEN environment
variable is unset or empty. -/
theorem c7_amended (c : Config) (env : Env)
    (h : validateBootstrap c = Except.ok () ∨
         (validateRuntime c = Except.ok () ∧ env.installToken = "")) :
    load (save c) env = c := by
  unfold load save
  rw [unmarshal_marshal]
  rcases h with hb | ⟨hr, he⟩
  · obtain ⟨horg, htok⟩ := validateBootstrap_ok hb
    exact applyEnvOverlay_id env c horg (Or.inl htok)
  · have horg : c.orgID ≠ "" := ((validateRuntime_ok_iff c).mp hr).2.1
    exact applyEnvOverlay_id env c horg (Or.inr he)

/-- C7 witness: the round trip at a concrete bootstrap-valid config, even
with INSTALL_TOKEN set in the environment. -/
theorem c7_amended_witness : load (save cfgBootstrapEx) envTokenEx = cfgBootstrapEx :=
  c7_amended cfgBootstrapEx envTokenEx (Or.inl (by decide))

/-- C8 counterexample: a config satisfying every condition the claim
lists, with an empty org_id, is rejected by ValidateRuntime although the
claim says it is accepted. -/
theorem c8_counterexample : ¬ claimC8 cfgNoOrgEx := by
  unfold claimC8
  decide

/-- C8 (amended): ValidateRuntime succeeds exactly when bootstrapped is
true, org_id, agent_id and api_base_url are all non-empty,
collection_interval is at least 10 seconds and batch_size lies in
1..1000; holding the other fields valid, batch_size 1 and 1000 and a
10-second interval are accepted while batch_size 0 and 1001 and a
9-second interval are rejected. -/
theorem c8_amended :
    (∀ c : Config, validateRuntime c = Except.ok () ↔
      (c.bootstrapped = true ∧ c.orgID ≠ "" ∧ c.agentID ≠ "" ∧ c.apiBaseURL ≠ "" ∧
       10 * second ≤ c.collectionInterval ∧ 1 ≤ c.batchSize ∧ c.batchSize ≤ 1000)) ∧
    validateRuntime { cfgRuntimeEx with batchSize := 1 } = Except.ok () ∧
    validateRuntime { cfgRuntimeEx with batchSize := 1000 } = Except.ok () ∧
    validateRuntime { cfgRuntimeEx with collectionInterval := 10 * second } = Except.ok () ∧
    validateRuntime { cfgRuntimeEx with batchSize := 0 } ≠ Except.ok () ∧
    validateRuntime { cfgRuntimeEx with batchSize := 1001 } ≠ Except.ok () ∧
    validateRuntime { cfgRuntimeEx with collectionInterval := 9 * second } ≠ Except.ok () :=
  ⟨validateRuntime_ok_iff, by decide, by decide, by decide, by decide, by decide, by decide⟩

/-- C8 witness: the characterization evaluated at the concrete
runtime-valid config. -/
theorem c8_amended_witness : validateRuntime cfgRuntimeEx = Except.ok () :=
  (c8_amended.1 cfgRuntimeEx).mpr (by decide)

/-- C9: MarkBootstrapped sets bootstrapped to true, agent_id and
api_base_url to its arguments, clears install_token, and leaves every
other field of the config unchanged. -/
theorem c9_theorem (c : Config) (a u : String) :
    (markBootstrapped c a u).bootstrapped = true ∧
    (markBootstrapped c a u).agentID = a ∧
    (markBootstrapped c a u).apiBaseURL = u ∧
    (markBootstrapped c a u).installToken = "" ∧
    (markBootstrapped c a u).orgID = c.orgID ∧
    (markBootstrapped c a u).tls = c.tls ∧
    (markBootstrapped c a u).collectionInterval = c.collectionInterval ∧
    (markBootstrapped c a u).batchSize = c.batchSize ∧
    (markBootstrapped c a u).maxBufferSize = c.maxBufferSize ∧
    (markBootstrapped c a u).bufferDir = c.bufferDir ∧
    (markBootstrapped c a u).heartbeatInterval = c.heartbeatInterval ∧
    (markBootstrapped c a u).logLevel = c.logLevel ∧
    (markBootstrapped c a u).logFile = c.logFile ∧
    (markBootstrapped c a u).updateEnabled = c.updateEnabled ∧
    (markBootstrapped c a u).updateCheckInterval = c.updateCheckInterval :=
  ⟨rfl, rfl, rfl, rfl, rfl, rfl, rfl, rfl, rfl, rfl, rfl, rfl, rfl, rfl, rfl⟩

/-- C10: RunBootstrap on a config whose install_token (or org_id) is
empty returns an error wrapping ErrInvalidBootstrap with zero network
calls and an empty file-system trace; and the supervisor re-bootstrap
path always reaches that failure, because a config marked bootstrapped,
saved and loaded back with INSTALL_TOKEN unset still has an empty
install_token. -/
theorem c10_theorem :
    (∀ (c : Config) (oracle : Nat → ApiResult), c.installToken = "" ∨ c.orgID = "" →
      ∃ msg, (runBootstrap c oracle).result =
          Except.error (BootstrapError.validation (ConfigError.invalidBootstrap msg)) ∧
        (runBootstrap c oracle).netCalls = 0 ∧ (runBootstrap c oracle).fsOps = []) ∧
    (∀ (c : Config) (a u : String) (env : Env) (oracle : Nat → ApiResult),
      env.installToken = "" →
      (load (save (markBootstrapped c a u)) env).installToken = "" ∧
      ∃ msg, (runBootstrap (load (save (markBootstrapped c a u)) env) oracle).result =
          Except.error (BootstrapError.validation (ConfigError.invalidBootstrap msg)) ∧
        (runBootstrap (load (save (markBootstrapped c a u)) env) oracle).netCalls = 0 ∧
        (runBootstrap (load (save (markBootstrapped c a u)) env) oracle).fsOps = []) := by
  refine ⟨fun c oracle h => runBootstrap_invalid c oracle h, ?_⟩
  intro c a u env oracle he
  have h1 : (load (save (markBootstrapped c a u)) env).installToken = "" := by
    unfold load save
    rw [unmarshal_marshal, applyEnvOverlay_installToken env _ he]
    rfl
  exact ⟨h1, runBootstrap_invalid _ oracle (Or.inl h1)⟩

/-- C10 witness: the validation failure evaluated at the concrete
runtime config left by a successful bootstrap (its install_token is
empty). -/
theorem c10_witness :
    ∃ msg, (runBootstrap cfgRuntimeEx oracle401).result =
        Except.error (BootstrapError.validation (ConfigError.invalidBootstrap msg)) ∧
      (runBootstrap cfgRuntimeEx oracle401).netCalls = 0 ∧
      (runBootstrap cfgRuntimeEx oracle401).fsOps = [] :=
  c10_theorem.1 cfgRuntimeEx oracle401 (Or.inl rfl)

end Agent
